import Mathlib

/-!
Verification of the hubble FDG (flexible data gathering) module.

Source files embedded here:
  * `hubblestack/extmods/modules/fdg.py` — entry points `run`, `top`,
    `_fdg_saltify`, `_get_top_data`, and the module docstring describing
    the chaining keyword semantics.
  * `hubblestack/extmods/hubble_mods/sysctl.py` — `validate_params`, `execute`.

The recursive block executor lives in `hubblestack.extmods.module_runner`
(imported by `fdg.py` but not part of the sources at hand), so the engine
(`resolve`, `evaluate`, the runner plumbing) is modelled from the spec and from
the contract stated in the `fdg.py` module docstring; the definitions carry
`Modelled from the spec:` doc comments.  Everything taken from `fdg.py` and
`sysctl.py` themselves is translated directly from the Python.
-/

namespace HubbleFdg

/-- A Python value, as far as the FDG data model needs it: strings, ints,
bools, `None`, lists, and dicts (whose keys may be arbitrary values, as in
Python). -/
inductive Val where
  | vnone : Val
  | vbool : Bool → Val
  | vint : Int → Val
  | vstr : String → Val
  | vlist : List Val → Val
  | vdict : List (Val × Val) → Val

/-- Python truthiness of a value (`bool(v)`): `None`, `False`, `0`, `""`, and
empty containers are falsy, everything else is truthy. -/
def Val.truthy : Val → Bool
  | Val.vnone => false
  | Val.vbool b => b
  | Val.vint n => n != 0
  | Val.vstr s => s != ""
  | Val.vlist xs => !xs.isEmpty
  | Val.vdict entries => !entries.isEmpty

/-- Truthiness of an optional value; `none` models a Python variable holding
`None` (or an absent key), which is falsy. -/
def optTruthy : Option Val → Bool
  | none => false
  | some v => v.truthy

/-- Is `pre` a prefix of the character list `l` (models `str.startswith`). -/
def charListIsPrefixOf : List Char → List Char → Bool
  | [], _ => true
  | _ :: _, [] => false
  | a :: as, b :: bs => a == b && charListIsPrefixOf as bs

/-- Does `needle` occur as a contiguous run inside `l` (models Python
`needle in hay` on strings). -/
def charListContains (needle : List Char) : List Char → Bool
  | [] => charListIsPrefixOf needle []
  | b :: bs => charListIsPrefixOf needle (b :: bs) || charListContains needle bs

/-- Python `needle in hay` for strings. -/
def strContains (hay needle : String) : Bool :=
  charListContains needle.toList hay.toList

/-- Python `s.startswith(pre)`. -/
def strStartsWith (s pre : String) : Bool :=
  charListIsPrefixOf pre.toList s.toList

/-- Python `s.lower()`. -/
def strToLower (s : String) : String :=
  String.mk (s.toList.map Char.toLower)

/-- The two data-propagation modes of a chaining keyword: `PIPE` forwards the
whole payload, `XPIPE` iterates over it. -/
inductive Mode where
  | PIPE : Mode
  | XPIPE : Mode

/-- The six optional chaining keywords a block may declare, each naming the
target block id (fdg.py docstring, lines 77-94). -/
structure Directives where
  pipe : Option String
  xpipe : Option String
  pipe_on_true : Option String
  pipe_on_false : Option String
  xpipe_on_true : Option String
  xpipe_on_false : Option String

/-- A conditional chaining keyword participates only when its condition on the
signal holds; otherwise it is ignored and the next keyword in precedence order
is consulted. -/
def condKeyword (target : Option String) (cond : Bool) : Option String :=
  if cond then target else none

/-- Modelled from the spec: the ChainResolver (spec section 4.2; the executor
module implementing it is not among the sources).  The first keyword that is
present and whose condition matches the signal wins; precedence, highest to
lowest, is `xpipe_on_true`, `xpipe_on_false`, `pipe_on_true`, `pipe_on_false`,
`xpipe`, `pipe` — the same order the fdg.py module docstring states
(keywords lower on its list take precedence over those higher on it).
Returning an `Option` makes "at most one action" intrinsic. -/
def resolve (d : Directives) (signal : Bool) : Option (Mode × String) :=
  match condKeyword d.xpipe_on_true signal with
  | some t => some (Mode.XPIPE, t)
  | none =>
  match condKeyword d.xpipe_on_false (!signal) with
  | some t => some (Mode.XPIPE, t)
  | none =>
  match condKeyword d.pipe_on_true signal with
  | some t => some (Mode.PIPE, t)
  | none =>
  match condKeyword d.pipe_on_false (!signal) with
  | some t => some (Mode.PIPE, t)
  | none =>
  match d.xpipe with
  | some t => some (Mode.XPIPE, t)
  | none =>
  match d.pipe with
  | some t => some (Mode.PIPE, t)
  | none => none

/-- The candidate actions of a block, listed in the spec's precedence order
(section 4.2), keeping only keywords that are present and whose condition
matches the signal.  Used to state the precedence claim. -/
def orderedActions (d : Directives) (signal : Bool) : List (Mode × String) :=
  ((condKeyword d.xpipe_on_true signal).map (fun t => (Mode.XPIPE, t))).toList ++
  ((condKeyword d.xpipe_on_false (!signal)).map (fun t => (Mode.XPIPE, t))).toList ++
  ((condKeyword d.pipe_on_true signal).map (fun t => (Mode.PIPE, t))).toList ++
  ((condKeyword d.pipe_on_false (!signal)).map (fun t => (Mode.PIPE, t))).toList ++
  (d.xpipe.map (fun t => (Mode.XPIPE, t))).toList ++
  (d.pipe.map (fun t => (Mode.PIPE, t))).toList

/-- No chaining keyword of the block is actionable: the unconditional keywords
are absent and every conditional keyword that matches the signal is absent
(the spec's "no directives present, or whose only conditional directives fail
to match signal"). -/
def noMatchingKeyword (d : Directives) (signal : Bool) : Prop :=
  d.pipe = none ∧ d.xpipe = none ∧
  (signal = true → d.pipe_on_true = none ∧ d.xpipe_on_true = none) ∧
  (signal = false → d.pipe_on_false = none ∧ d.xpipe_on_false = none)

/-- A capability (fdg module function): called with the block's positional
args, keyword args, and the optional chained input, it returns the pair
`(status, value)` required by the fdg contract — the status drives the
conditional chaining keywords, the value is forwarded or bubbled up.  The
status is modelled directly as its truthiness. -/
abbrev Capability := List Val → List (String × Val) → Option Val → (Bool × Val)

/-- The registry mapping a `"module.function"` string to a capability;
`none` models an unregistered identifier. -/
abbrev Registry := String → Option Capability

/-- One block of an fdg routine document: the `module.function` reference,
literal args and kwargs, the optional returner name (the `return` key), and
the chaining keywords. -/
structure Block where
  module : String
  args : List Val
  kwargs : List (String × Val)
  ret : Option String
  dirs : Directives

/-- A routine document: block id to block. -/
abbrev Document := List (String × Block)

/-- Look a block up by id in the document. -/
def lookupBlock (doc : Document) (blockId : String) : Option Block :=
  (doc.find? (fun p => p.1 == blockId)).map (fun p => p.2)

/-- Evaluation-time failures of the engine (spec section 7): unknown block id
named by a chaining keyword, unregistered capability, non-iterable payload
under `xpipe`, and fuel exhaustion (standing in for Python's call-stack limit
on cyclic or too-deep documents). -/
inductive EvalErr where
  | unknownBlock : String → EvalErr
  | unknownCapability : String → EvalErr
  | notIterable : String → EvalErr
  | recursionLimit : EvalErr

/-- Iterate a recursive evaluation `f` over the elements of an `xpipe` payload
in order, collecting the sub-results into an ordered list; the first failure
aborts (spec section 4.3, step 7). -/
def evalEach (f : Val → Except EvalErr Val) : List Val → Except EvalErr (List Val)
  | [] => Except.ok []
  | x :: rest =>
    match f x with
    | Except.error e => Except.error e
    | Except.ok r =>
      match evalEach f rest with
      | Except.error e => Except.error e
      | Except.ok rs => Except.ok (r :: rs)

/-- Modelled from the spec: one step of the BlockExecutor (spec section 4.3;
the executor module is not among the sources), parameterised by the function
`recurse` used for recursive evaluation.  Look up the block, resolve its
capability, invoke it, ask `resolve` for the next action; on no action return
the payload (the returner, if any, is a side effect that does not alter the
value), on `PIPE` recurse with the whole payload, on `XPIPE` iterate over a
list payload. -/
def evalStep (reg : Registry) (doc : Document)
    (recurse : String → Option Val → Except EvalErr Val)
    (blockId : String) (chained : Option Val) : Except EvalErr Val :=
  match lookupBlock doc blockId with
  | none => Except.error (EvalErr.unknownBlock blockId)
  | some b =>
    match reg b.module with
    | none => Except.error (EvalErr.unknownCapability b.module)
    | some cap =>
      let sp := cap b.args b.kwargs chained
      match resolve b.dirs sp.fst with
      | none => Except.ok sp.snd
      | some (Mode.PIPE, target) => recurse target (some sp.snd)
      | some (Mode.XPIPE, target) =>
        match sp.snd with
        | Val.vlist xs => (evalEach (fun x => recurse target (some x)) xs).map Val.vlist
        | _ => Except.error (EvalErr.notIterable blockId)

/-- Modelled from the spec: the recursive BlockExecutor, with explicit fuel.
Every recursive call (one chaining step, or one `xpipe` iteration entering the
target block) consumes one unit of fuel, so a successful evaluation at fuel
`n + 1` performs recursion of depth at most `n`. -/
def evaluate (reg : Registry) (doc : Document) : Nat → String → Option Val → Except EvalErr Val
  | 0, _, _ => Except.error EvalErr.recursionLimit
  | fuel + 1, blockId, chained => evalStep reg doc (evaluate reg doc fuel) blockId chained

/-- Modelled from the spec: the environment a run of `fdg.run` executes in —
the capability registry, the loader resolving an fdg file path to its parsed
routine document, and the available recursion depth. -/
structure FdgEnv where
  registry : Registry
  loadRoutine : String → Document
  fuel : Nat

/-- Modelled from the spec: `fdg_runner.execute` (module_runner, not among the
sources).  Per the contract stated in the `run` docstring and spec section 6,
it returns `((fdg_file, starting_chained), result)` where the result comes
from evaluating the routine starting at the `main` block with
`starting_chained` as the chained input. -/
def fdgRunnerExecute (env : FdgEnv) (fdg_file : String) (starting_chained : Option Val) :
    (String × Option Val) × Except EvalErr Val :=
  ((fdg_file, starting_chained),
    evaluate env.registry (env.loadRoutine fdg_file) env.fuel "main" starting_chained)

/-- Function `run` of fdg.py (lines 134-159): hands the file and the starting chained
value over to the fdg runner. -/
def run (env : FdgEnv) (fdg_file : String) (starting_chained : Option Val) :
    (String × Option Val) × Except EvalErr Val :=
  fdgRunnerExecute env fdg_file starting_chained

/-- Function `_fdg_saltify` of fdg.py (lines 203-209), translated as written: the source
computes `os.path.sep.join(path.split('.'))` but discards the result (the
expression is not assigned), so the returned string interpolates the original
`path`, periods intact. -/
def _fdg_saltify (path : String) : String :=
  "salt://fdg/" ++ path ++ ".fdg"

/-- Python `s.split(sep)` over a character list, with `acc` the characters of
the current field read so far (in reverse). -/
def splitChars (sep : Char) : List Char → List Char → List (List Char)
  | [], acc => [acc.reverse]
  | c :: rest, acc =>
    if c == sep then acc.reverse :: splitChars sep rest []
    else splitChars sep rest (c :: acc)

/-- Python `sep.join(parts)` over character lists. -/
def joinChars (sep : Char) : List (List Char) → List Char
  | [] => []
  | [x] => x
  | x :: y :: rest => x ++ sep :: joinChars sep (y :: rest)

/-- The behaviour the surrounding documentation describes for `_fdg_saltify`
(`top` docstring, fdg.py lines 174-176: periods are interpreted as directory
separators): split on periods, rejoin with the path separator
(`os.path.sep.join(path.split('.'))`), place under `salt://fdg/` with the
`.fdg` extension.  Kept for comparison with the translated source. -/
def fdg_saltify_documented (path : String) : String :=
  "salt://fdg/" ++ String.mk (joinChars '/' (splitChars '.' path.toList [])) ++ ".fdg"

/-- Runtime failures reachable from `top` and `_get_top_data`:
`commandExecutionError` is the salt `CommandExecutionError` the source raises
deliberately; the other three model Python exceptions the interpreter raises
on its own (`.items()` on a non-dict, iterating a non-iterable, referencing an
undefined global name). -/
inductive TopError where
  | commandExecutionError : String → TopError
  | attributeError : String → TopError
  | typeError : String → TopError
  | nameError : String → TopError

/-- The environment `top` runs in: `cacheFile` models
`__salt__['cp.cache_file']` (`none` for a falsy return, i.e. the topfile is
absent from the fileserver), `loadYaml` models opening and
`yaml.safe_load`-ing the cached file (`Except.error` for a raised exception),
and `matchCompound` models `__salt__['match.compound']` on a match key. -/
structure TopEnv where
  cacheFile : String → Option String
  loadYaml : String → Except String Val
  matchCompound : Val → Bool

/-- Look up a string key in a Python dict (`d[key]` / `key in d`); keys that
are not strings never equal a string key. -/
def dictGetStr (entries : List (Val × Val)) (key : String) : Option Val :=
  (entries.find? (fun p =>
    match p.1 with
    | Val.vstr s => s == key
    | _ => false)).map (fun p => p.2)

/-- The check `_get_top_data` performs on the parsed topfile:
`isinstance(topdata, dict) and 'fdg' in topdata`. -/
def isFdgTopdata : Val → Bool
  | Val.vdict entries => (dictGetStr entries "fdg").isSome
  | _ => false

/-- Python iteration over a value, as used by `ret.extend(data)`: lists yield
their elements, strings their characters, dicts their keys; other values raise
`TypeError`. -/
def pyIterate : Val → Except TopError (List Val)
  | Val.vlist xs => Except.ok xs
  | Val.vstr s => Except.ok (s.toList.map (fun c => Val.vstr (String.mk [c])))
  | Val.vdict entries => Except.ok (entries.map (fun p => p.1))
  | _ => Except.error (TopError.typeError "object is not iterable")

/-- The `ret.extend(data)` loop of `_get_top_data` over the match entries that
passed `match.compound`, in order. -/
def collectRoutines : List (Val × Val) → Except TopError (List Val)
  | [] => Except.ok []
  | p :: rest =>
    match pyIterate p.2 with
    | Except.error e => Except.error e
    | Except.ok xs =>
      match collectRoutines rest with
      | Except.error e => Except.error e
      | Except.ok ys => Except.ok (xs ++ ys)

/-- Function `_get_top_data` of fdg.py (lines 211-238): a falsy `cp.cache_file` return
means the topfile is absent and yields the empty routine list; a load/parse
exception becomes a `CommandExecutionError`; a parse result that is not a dict
containing the key `fdg` raises a `CommandExecutionError`; otherwise the
routine references under the matching targets are collected in order
(`topdata['fdg'].items()` on a non-dict value raises `AttributeError`). -/
def _get_top_data (env : TopEnv) (topfile : String) : Except TopError (List Val) :=
  match env.cacheFile topfile with
  | none => Except.ok []
  | some cached =>
    match env.loadYaml cached with
    | Except.error exc =>
      Except.error (TopError.commandExecutionError ("Could not load topfile: " ++ exc))
    | Except.ok topdata =>
      match topdata with
      | Val.vdict entries =>
        match dictGetStr entries "fdg" with
        | none =>
          Except.error (TopError.commandExecutionError
            "fdg topfile not formatted correctly: missing fdg key or not formed as a dict")
        | some fdgval =>
          match fdgval with
          | Val.vdict matchEntries =>
            collectRoutines (matchEntries.filter (fun p => env.matchCompound p.1))
          | _ => Except.error (TopError.attributeError "items")
      | _ =>
        Except.error (TopError.commandExecutionError
          "fdg topfile not formatted correctly: missing fdg key or not formed as a dict")

/-- The loop body of `top` (fdg.py lines 192-199) for each collected routine
reference.  The body calls a function named `fdg` (`retkey, retval = fdg(...)`),
but no binding named `fdg` exists in the module — the runner entry point is
named `run` — so the first executed call raises `NameError`.  A reference that
is an empty dict never executes the inner loop body and is skipped. -/
def topLoop : List Val → Except TopError (List ((String × Option Val) × Except EvalErr Val))
  | [] => Except.ok []
  | Val.vdict [] :: rest => topLoop rest
  | _ :: _ => Except.error (TopError.nameError "name fdg is not defined")

/-- Function `top` of fdg.py (lines 161-200): collect the matching routine references from
the topfile, then run the loop over them. -/
def top (env : TopEnv) (fdg_topfile : String) :
    Except TopError (List ((String × Option Val) × Except EvalErr Val)) :=
  match _get_top_data env fdg_topfile with
  | Except.error e => Except.error e
  | Except.ok fdg_routines => topLoop fdg_routines

namespace Sysctl

/-- The chained-argument dictionary a module function receives, per the
docstrings in sysctl.py: `{'result': ..., 'status': ...}`. -/
structure ChainArgs where
  result : Option Val
  status : Option Bool

/-- Modelled from the spec: `runner_utils.get_chained_param`
(module_runner.runner_utils, not among the sources) — extract the chained
`result` value from the chained-argument dictionary, `None` when absent. -/
def get_chained_param (chain_args : Option ChainArgs) : Option Val :=
  match chain_args with
  | none => none
  | some c => c.result

/-- Modelled from the spec: `runner_utils.get_param_for_module`
(module_runner.runner_utils, not among the sources) — fetch a named argument
of the block from its parameter dictionary, `None` when absent.
(`block_dict` is modelled directly as the block's argument mapping.) -/
def get_param_for_module (block_id : String) (block_dict : List (String × Val))
    (key : String) : Option Val :=
  (block_dict.find? (fun p => p.1 == key)).map (fun p => p.2)

/-- Function `validate_params` of sysctl.py (lines 66-93): build the error dict; when
neither the chained parameter nor the `name` argument is (truthily) present,
record a message naming the missing parameter `name` and the block id, and
raise `HubbleCheckValidationError` with that dict; otherwise return without
error.  The raised error is modelled as `Except.error` carrying the dict. -/
def validate_params (block_id : String) (block_dict : List (String × Val))
    (chain_args : Option ChainArgs) : Except (List (String × String)) Unit :=
  let name_param_chained := get_chained_param chain_args
  let name_param := get_param_for_module block_id block_dict "name"
  if !optTruthy name_param_chained && !optTruthy name_param then
    Except.error [("name", "Mandatory parameter: name not found for id: " ++ block_id)]
  else
    Except.ok ()

/-- Python `'%s' % v` rendering of the optional `name` value as used in the
messages of `execute`.  In every real routine the name is a string; the
container renderings are abbreviated placeholders (no claim depends on
them). -/
def pyFmt : Option Val → String
  | none => "None"
  | some Val.vnone => "None"
  | some (Val.vbool true) => "True"
  | some (Val.vbool false) => "False"
  | some (Val.vint n) => toString n
  | some (Val.vstr s) => s
  | some (Val.vlist _) => "<list>"
  | some (Val.vdict _) => "<dict>"

/-- Modelled from the spec: `runner_utils.prepare_negative_result_for_module`
(not among the sources) — a soft negative invocation result, i.e. a false
status with the descriptive failure reason as payload. -/
def prepare_negative_result_for_module (block_id : String) (failure_reason : String) :
    Bool × Val :=
  (false, Val.vstr failure_reason)

/-- Modelled from the spec: `runner_utils.prepare_positive_result_for_module`
(not among the sources) — a positive invocation result: true status carrying
the result value. -/
def prepare_positive_result_for_module (block_id : String) (result : Val) :
    Bool × Val :=
  (true, result)

/-- The parameter fetch at the top of `execute` (sysctl.py lines 113-116):
the chained parameter when truthily present, else the block's `name`
argument. -/
def resolved_name (block_id : String) (block_dict : List (String × Val))
    (chain_args : Option ChainArgs) : Option Val :=
  let name0 := get_chained_param chain_args
  if optTruthy name0 then name0 else get_param_for_module block_id block_dict "name"

/-- Function `execute` of sysctl.py (lines 96-126): fetch the parameter name, query
`__salt__['sysctl.get']` (modelled as the oracle `sysctlGet`), and classify
the result string: an empty result or one containing
"No such file or directory" gives a soft negative result, as does a result
whose lowercase form starts with "error"; otherwise a positive result carrying
the dict `{name: value}`.  The function is total: it raises nothing. -/
def execute (block_id : String) (block_dict : List (String × Val))
    (chain_args : Option ChainArgs) (sysctlGet : Option Val → String) : Bool × Val :=
  let name := resolved_name block_id block_dict chain_args
  let sysctl_res := sysctlGet name
  if sysctl_res == "" || strContains sysctl_res "No such file or directory" then
    prepare_negative_result_for_module block_id
      ("Could not find attribute " ++ pyFmt name ++ " in the kernel")
  else if strStartsWith (strToLower sysctl_res) "error" then
    prepare_negative_result_for_module block_id
      ("An error occurred while reading the value of kernel attribute " ++ pyFmt name)
  else
    prepare_positive_result_for_module block_id
      (Val.vdict [((name.getD Val.vnone), Val.vstr sysctl_res)])

/-- The "not found" classification of a sysctl query result (the first guard
of `execute`). -/
def queryNotFound (res : String) : Bool :=
  res == "" || strContains res "No such file or directory"

/-- The "error" classification of a sysctl query result (the second guard of
`execute`). -/
def queryErrored (res : String) : Bool :=
  strStartsWith (strToLower res) "error"

end Sysctl

/-! Concrete fixtures, mirroring the scenario of spec section 8: a capability
`m.f` returning `(true, [1, 2])` and a capability `m.g` echoing its chained
input with a true status. -/

/-- Capability that echoes its chained input back as the payload with a true
status. -/
def echoCap : Capability := fun _ _ chained => (true, chained.getD Val.vnone)

/-- Capability that returns the constant list `[1, 2]` with a true status. -/
def constListCap : Capability := fun _ _ _ => (true, Val.vlist [Val.vint 1, Val.vint 2])

/-- Registry holding the two demo capabilities. -/
def demoReg : Registry := fun name =>
  if name == "m.f" then some constListCap
  else if name == "m.g" then some echoCap
  else none

/-- A block with no chaining keywords. -/
def noKeywords : Directives := ⟨none, none, none, none, none, none⟩

/-- Document whose `main` block `xpipe`s its list payload into the echo block
`b`. -/
def demoDocX : Document :=
  [("main", ⟨"m.f", [], [], none, ⟨none, some "b", none, none, none, none⟩⟩),
   ("b", ⟨"m.g", [], [], none, noKeywords⟩)]

/-- Document with a single terminal `main` block. -/
def demoDocT : Document := [("main", ⟨"m.f", [], [], none, noKeywords⟩)]

/-- Topfile environment in which the topfile is present, parses to
`fdg: {'*': [foo]}`, and the `'*'` target matches. -/
def demoTopEnv : TopEnv :=
  ⟨fun _ => some "/var/cache/salt/top.fdg",
   fun _ => Except.ok (Val.vdict
     [(Val.vstr "fdg", Val.vdict [(Val.vstr "*", Val.vlist [Val.vstr "foo"])])]),
   fun _ => true⟩

/-- Topfile environment in which `cp.cache_file` finds nothing: the topfile is
absent from the fileserver. -/
def absentTopEnv : TopEnv :=
  ⟨fun _ => none, fun _ => Except.ok Val.vnone, fun _ => false⟩

/-! Theorems settling the claims. -/

/-- C1: for every block and every signal value, the chain resolver selects at
most one next action (intrinsic in the `Option` result of `resolve`), namely
the first keyword that is present and whose condition matches the signal, in
the precedence order `xpipe_on_true` (truthy), `xpipe_on_false` (falsy),
`pipe_on_true` (truthy), `pipe_on_false` (falsy), `xpipe`, `pipe`; in
particular a block that sets both `pipe` and `xpipe_on_true` follows
`xpipe_on_true` under a truthy signal, never `pipe`. -/
theorem fdg_C1_chain_precedence (d : Directives) (signal : Bool) :
    resolve d signal = (orderedActions d signal).head? ∧
    (∀ p t, d.pipe = some p → d.xpipe_on_true = some t → signal = true →
      resolve d signal = some (Mode.XPIPE, t)) := by
  constructor
  · rcases d with ⟨p, xp, pot, pof, xot, xof⟩
    cases signal <;> cases p <;> cases xp <;> cases pot <;> cases pof <;>
      cases xot <;> cases xof <;> rfl
  · intro p t hp ht hs
    subst hs
    simp [resolve, condKeyword, ht]

/-- Witness for C1: a block declaring both `pipe` (to `"x"`) and
`xpipe_on_true` (to `"y"`), under a truthy signal, resolves to
`xpipe_on_true`. -/
theorem fdg_C1_chain_precedence_witness :
    resolve ⟨some "x", none, none, none, some "y", none⟩ true =
      some (Mode.XPIPE, "y") :=
  (fdg_C1_chain_precedence ⟨some "x", none, none, none, some "y", none⟩ true).2
    "x" "y" rfl rfl rfl

/-- A block none of whose chaining keywords is actionable resolves to no next
action. -/
theorem resolve_noMatch (d : Directives) (signal : Bool)
    (h : noMatchingKeyword d signal) : resolve d signal = none := by
  obtain ⟨hp, hxp, ht, hf⟩ := h
  cases signal
  · obtain ⟨hpf, hxf⟩ := hf rfl
    simp [resolve, condKeyword, hp, hxp, hpf, hxf]
  · obtain ⟨hpt, hxt⟩ := ht rfl
    simp [resolve, condKeyword, hp, hxp, hpt, hxt]

/-- C3: a block with no chaining keyword present, or whose only present
conditional keywords fail to match the signal, returns the capability
invocation's payload unchanged; success at every fuel bound `fuel + 1`,
including `fuel = 0`, shows that no recursive evaluation of any other block
takes place, since each recursive call consumes one unit of fuel. -/
theorem fdg_C3_terminal_block
    (reg : Registry) (doc : Document) (fuel : Nat) (blockId : String)
    (chained : Option Val) (b : Block) (cap : Capability)
    (hb : lookupBlock doc blockId = some b)
    (hc : reg b.module = some cap)
    (hnm : noMatchingKeyword b.dirs (cap b.args b.kwargs chained).fst) :
    evaluate reg doc (fuel + 1) blockId chained =
      Except.ok (cap b.args b.kwargs chained).snd := by
  have hr := resolve_noMatch _ _ hnm
  simp only [evaluate, evalStep, hb, hc, hr]

/-- Witness for C3: the single-block demo document evaluates, with zero fuel
left for recursion, to the payload `[1, 2]` of its own capability. -/
theorem fdg_C3_terminal_block_witness :
    evaluate demoReg demoDocT 1 "main" none =
      Except.ok (Val.vlist [Val.vint 1, Val.vint 2]) :=
  fdg_C3_terminal_block demoReg demoDocT 0 "main" none
    ⟨"m.f", [], [], none, noKeywords⟩ constListCap rfl rfl
    ⟨rfl, rfl, fun _ => ⟨rfl, rfl⟩, fun _ => ⟨rfl, rfl⟩⟩

/-- C4: `run` returns a pair whose first item is the two-item pair
`(fdg_file, starting_chained)` and whose second item is the result of
evaluating the routine starting at the `main` block with `starting_chained`
as the chained input. -/
theorem fdg_C4_run_contract (env : FdgEnv) (fdg_file : String)
    (starting_chained : Option Val) :
    run env fdg_file starting_chained =
      ((fdg_file, starting_chained),
        evaluate env.registry (env.loadRoutine fdg_file) env.fuel "main"
          starting_chained) := rfl

/-- C6: `_fdg_saltify` does not substitute periods — on `"dir.file"` the
source returns `"salt://fdg/dir.file.fdg"`, while the behaviour its own
documentation describes (periods interpreted as directory separators) yields
`"salt://fdg/dir/file.fdg"`, a different string: the join result on line 208
is discarded instead of being assigned to `path`. -/
theorem fdg_C6_saltify_no_substitution :
    _fdg_saltify "dir.file" = "salt://fdg/dir.file.fdg" ∧
    fdg_saltify_documented "dir.file" = "salt://fdg/dir/file.fdg" :=
  ⟨rfl, rfl⟩

/-- C7: evaluation is fully deterministic — two evaluations of the engine on
the same document, entry block, and starting value (and the same fuel bound)
produce identical results. -/
theorem fdg_C7_deterministic (reg : Registry) (doc1 doc2 : Document)
    (fuel : Nat) (b1 b2 : String) (c1 c2 : Option Val)
    (hdoc : doc1 = doc2) (hb : b1 = b2) (hc : c1 = c2) :
    evaluate reg doc1 fuel b1 c1 = evaluate reg doc2 fuel b2 c2 := by
  subst hdoc; subst hb; subst hc; rfl

/-- Witness for C7 on the demo document. -/
theorem fdg_C7_deterministic_witness :
    evaluate demoReg demoDocX 2 "main" none =
      evaluate demoReg demoDocX 2 "main" none :=
  fdg_C7_deterministic demoReg demoDocX demoDocX 2 "main" "main" none none
    rfl rfl rfl

/-- When iterating `f` over `xs` succeeds with collected results `rs`, the
collected list has the same length as the input and its i-th entry is the
(successful) result of `f` on the i-th input element. -/
theorem evalEach_ok (f : Val → Except EvalErr Val) :
    ∀ (xs rs : List Val), evalEach f xs = Except.ok rs →
      rs.length = xs.length ∧
        ∀ i, i < xs.length →
          f (xs.getD i Val.vnone) = Except.ok (rs.getD i Val.vnone) := by
  intro xs
  induction xs with
  | nil =>
    intro rs h
    simp only [evalEach] at h
    injection h with h
    subst h
    exact ⟨rfl, fun i hi => absurd hi (Nat.not_lt_zero i)⟩
  | cons x xt ih =>
    intro rs h
    simp only [evalEach] at h
    cases hfx : f x with
    | error e => rw [hfx] at h; simp at h
    | ok r =>
      rw [hfx] at h
      cases hrest : evalEach f xt with
      | error e => rw [hrest] at h; simp at h
      | ok rs2 =>
        rw [hrest] at h
        simp only [] at h
        injection h with h
        subst h
        obtain ⟨hlen, hpt⟩ := ih rs2 hrest
        refine ⟨by simp [hlen], ?_⟩
        intro i hi
        cases i with
        | zero => simpa using hfx
        | succ j =>
          simp only [List.getD_cons_succ]
          exact hpt j (Nat.lt_of_succ_lt_succ hi)

/-- C2: when a block's selected action is `XPIPE` and its payload is an
ordered list of length N, a successful evaluation of the block produces the
list whose i-th entry is the result of recursively evaluating the target
block with the i-th payload element as chained input, in iteration order, for
all i. -/
theorem fdg_C2_xpipe_iteration
    (reg : Registry) (doc : Document) (fuel : Nat) (blockId target : String)
    (chained : Option Val) (b : Block) (cap : Capability) (xs : List Val)
    (r : Val)
    (hb : lookupBlock doc blockId = some b)
    (hc : reg b.module = some cap)
    (hres : resolve b.dirs (cap b.args b.kwargs chained).fst =
      some (Mode.XPIPE, target))
    (hpl : (cap b.args b.kwargs chained).snd = Val.vlist xs)
    (hok : evaluate reg doc (fuel + 1) blockId chained = Except.ok r) :
    ∃ rs, r = Val.vlist rs ∧ rs.length = xs.length ∧
      ∀ i, i < xs.length →
        evaluate reg doc fuel target (some (xs.getD i Val.vnone)) =
          Except.ok (rs.getD i Val.vnone) := by
  simp only [evaluate, evalStep, hb, hc, hres, hpl] at hok
  cases hev : evalEach (fun x => evaluate reg doc fuel target (some x)) xs with
  | error e => rw [hev] at hok; simp [Except.map] at hok
  | ok rs =>
    rw [hev] at hok
    simp only [Except.map] at hok
    injection hok with hok
    obtain ⟨hlen, hpt⟩ := evalEach_ok _ xs rs hev
    exact ⟨rs, hok.symm, hlen, hpt⟩

/-- Witness for C2 on the demo document whose `main` block `xpipe`s the
payload `[1, 2]` into the echo block `b`. -/
theorem fdg_C2_xpipe_iteration_witness :
    ∃ rs, Val.vlist [Val.vint 1, Val.vint 2] = Val.vlist rs ∧
      rs.length = [Val.vint 1, Val.vint 2].length ∧
      ∀ i, i < [Val.vint 1, Val.vint 2].length →
        evaluate demoReg demoDocX 1 "b"
            (some ([Val.vint 1, Val.vint 2].getD i Val.vnone)) =
          Except.ok (rs.getD i Val.vnone) :=
  fdg_C2_xpipe_iteration demoReg demoDocX 1 "main" "b" none
    ⟨"m.f", [], [], none, ⟨none, some "b", none, none, none, none⟩⟩
    constListCap [Val.vint 1, Val.vint 2] (Val.vlist [Val.vint 1, Val.vint 2])
    rfl rfl rfl rfl rfl

/-- C5 (code bug): on a topfile whose single match `'*'` applies and lists the
routine `foo`, `top` raises `NameError` — the loop body calls a function
named `fdg`, but the module defines no such name (the runner entry point is
named `run`) — instead of returning the mapping of results its own docstring
describes. -/
theorem fdg_C5_top_undefined_name :
    top demoTopEnv "salt://fdg/top.fdg" =
      Except.error (TopError.nameError "name fdg is not defined") := rfl

/-- C8: the sysctl `validate_params` raises a validation error carrying the
missing parameter name `name` and the originating block id exactly when
neither a chained input value nor a `name` argument is (truthily) supplied;
when either is present it returns without error. -/
theorem sysctl_C8_validate_name (block_id : String)
    (block_dict : List (String × Val)) (chain_args : Option Sysctl.ChainArgs) :
    (Sysctl.validate_params block_id block_dict chain_args =
        Except.error
          [("name", "Mandatory parameter: name not found for id: " ++ block_id)] ↔
      optTruthy (Sysctl.get_chained_param chain_args) = false ∧
        optTruthy (Sysctl.get_param_for_module block_id block_dict "name") =
          false) ∧
    (optTruthy (Sysctl.get_chained_param chain_args) = true ∨
        optTruthy (Sysctl.get_param_for_module block_id block_dict "name") =
          true →
      Sysctl.validate_params block_id block_dict chain_args = Except.ok ()) := by
  cases h1 : optTruthy (Sysctl.get_chained_param chain_args) <;>
    cases h2 : optTruthy (Sysctl.get_param_for_module block_id block_dict "name") <;>
    simp [Sysctl.validate_params, h1, h2]

/-- Witness for C8: with no chained input and no `name` argument the
validation error is raised, naming the parameter and the block id. -/
theorem sysctl_C8_validate_name_witness :
    Sysctl.validate_params "blk" [] none =
      Except.error [("name", "Mandatory parameter: name not found for id: blk")] :=
  (sysctl_C8_validate_name "blk" [] none).1.mpr ⟨rfl, rfl⟩

/-- C9: the sysctl `execute` never raises — it returns a soft negative result
(false status, descriptive payload) when the query result is empty or reports
a missing file, or when it reports an error; only when the query succeeds does
it return a positive result carrying the name-to-value mapping. -/
theorem sysctl_C9_soft_failure (block_id : String)
    (block_dict : List (String × Val)) (chain_args : Option Sysctl.ChainArgs)
    (sysctlGet : Option Val → String) (res : String)
    (hres : sysctlGet (Sysctl.resolved_name block_id block_dict chain_args) = res) :
    (Sysctl.queryNotFound res = true →
      Sysctl.execute block_id block_dict chain_args sysctlGet =
        (false, Val.vstr ("Could not find attribute " ++
          Sysctl.pyFmt (Sysctl.resolved_name block_id block_dict chain_args) ++
          " in the kernel"))) ∧
    (Sysctl.queryNotFound res = false → Sysctl.queryErrored res = true →
      Sysctl.execute block_id block_dict chain_args sysctlGet =
        (false, Val.vstr
          ("An error occurred while reading the value of kernel attribute " ++
            Sysctl.pyFmt (Sysctl.resolved_name block_id block_dict chain_args)))) ∧
    (Sysctl.queryNotFound res = false → Sysctl.queryErrored res = false →
      Sysctl.execute block_id block_dict chain_args sysctlGet =
        (true, Val.vdict
          [((Sysctl.resolved_name block_id block_dict chain_args).getD Val.vnone,
            Val.vstr res)])) := by
  subst hres
  refine ⟨?_, ?_, ?_⟩
  · intro h
    simp only [Sysctl.queryNotFound] at h
    simp [Sysctl.execute, Sysctl.prepare_negative_result_for_module, h]
  · intro h h2
    simp only [Sysctl.queryNotFound] at h
    simp only [Sysctl.queryErrored] at h2
    simp [Sysctl.execute, Sysctl.prepare_negative_result_for_module, h, h2]
  · intro h h2
    simp only [Sysctl.queryNotFound] at h
    simp only [Sysctl.queryErrored] at h2
    simp [Sysctl.execute, Sysctl.prepare_positive_result_for_module, h, h2]

/-- Witness for C9: a successful query (`sysctl.get` returning `"0"`) yields
the positive result carrying the name-to-value mapping. -/
theorem sysctl_C9_soft_failure_witness :
    Sysctl.execute "blk" [("name", Val.vstr "vm.swappiness")] none
        (fun _ => "0") =
      (true, Val.vdict [(Val.vstr "vm.swappiness", Val.vstr "0")]) :=
  (sysctl_C9_soft_failure "blk" [("name", Val.vstr "vm.swappiness")] none
    (fun _ => "0") "0" rfl).2.2 rfl rfl

/-- The only exception `ret.extend(data)` can raise is a `TypeError` for a
non-iterable value. -/
theorem pyIterate_error_kind (v : Val) (e : TopError)
    (h : pyIterate v = Except.error e) :
    e = TopError.typeError "object is not iterable" := by
  cases v <;> simp [pyIterate] at h <;> exact h.symm

/-- The extend loop over the matched topfile entries never raises a
`CommandExecutionError` of its own. -/
theorem collectRoutines_no_cee (ps : List (Val × Val)) (msg : String) :
    ¬ collectRoutines ps = Except.error (TopError.commandExecutionError msg) := by
  induction ps with
  | nil => intro h; simp [collectRoutines] at h
  | cons p rest ih =>
    intro h
    simp only [collectRoutines] at h
    cases hit : pyIterate p.2 with
    | error e =>
      rw [hit] at h
      simp only [] at h
      injection h with h
      rw [pyIterate_error_kind p.2 e hit] at h
      cases h
    | ok xs =>
      rw [hit] at h
      cases hrest : collectRoutines rest with
      | error e2 =>
        rw [hrest] at h
        simp only [] at h
        injection h with h
        rw [h] at hrest
        exact ih hrest
      | ok ys => rw [hrest] at h; simp at h

/-- C10: `_get_top_data` raises a `CommandExecutionError` if and only if the
topfile is fetched from the fileserver but fails to load/parse as YAML, or
parses to something that is not a mapping containing the key `fdg`; and when
the topfile is absent from the fileserver, `_get_top_data` returns the empty
routine list and `top` returns the empty mapping without raising and without
running any routine. -/
theorem fdg_C10_topfile_loading (env : TopEnv) (topfile : String) :
    ((∃ msg, _get_top_data env topfile =
        Except.error (TopError.commandExecutionError msg)) ↔
      ∃ cached, env.cacheFile topfile = some cached ∧
        ((∃ exc, env.loadYaml cached = Except.error exc) ∨
          ∀ v, env.loadYaml cached = Except.ok v → isFdgTopdata v = false)) ∧
    (env.cacheFile topfile = none →
      _get_top_data env topfile = Except.ok [] ∧
        top env topfile = Except.ok []) := by
  refine ⟨?_, ?_⟩
  · cases hcf : env.cacheFile topfile with
    | none =>
      constructor
      · rintro ⟨msg, h⟩
        simp [_get_top_data, hcf] at h
      · rintro ⟨cached, hc, _⟩
        exact Option.noConfusion hc
    | some cached =>
      cases hy : env.loadYaml cached with
      | error exc =>
        constructor
        · intro _
          exact ⟨cached, rfl, Or.inl ⟨exc, hy⟩⟩
        · intro _
          refine ⟨"Could not load topfile: " ++ exc, ?_⟩
          simp [_get_top_data, hcf, hy]
      | ok v =>
        cases hfd : isFdgTopdata v with
        | false =>
          constructor
          · intro _
            refine ⟨cached, rfl, Or.inr ?_⟩
            intro v2 hv2
            rw [hy] at hv2
            injection hv2 with hv2
            rw [← hv2]
            exact hfd
          · intro _
            refine
              ⟨"fdg topfile not formatted correctly: missing fdg key or not formed as a dict", ?_⟩
            cases v with
            | vdict entries =>
              simp only [isFdgTopdata, Option.isSome] at hfd
              cases hdg : dictGetStr entries "fdg" with
              | some x => rw [hdg] at hfd; cases hfd
              | none => simp [_get_top_data, hcf, hy, hdg]
            | vnone => simp [_get_top_data, hcf, hy]
            | vbool b => simp [_get_top_data, hcf, hy]
            | vint n => simp [_get_top_data, hcf, hy]
            | vstr s => simp [_get_top_data, hcf, hy]
            | vlist xs => simp [_get_top_data, hcf, hy]
        | true =>
          constructor
          · rintro ⟨msg, h⟩
            cases v with
            | vdict entries =>
              simp only [isFdgTopdata] at hfd
              cases hdg : dictGetStr entries "fdg" with
              | none => rw [hdg] at hfd; cases hfd
              | some fdgval =>
                simp only [_get_top_data, hcf, hy, hdg] at h
                cases fdgval with
                | vdict matchEntries => exact absurd h (collectRoutines_no_cee _ msg)
                | vnone => simp at h
                | vbool b => simp at h
                | vint n => simp at h
                | vstr s => simp at h
                | vlist xs => simp at h
            | vnone => simp [isFdgTopdata] at hfd
            | vbool b => simp [isFdgTopdata] at hfd
            | vint n => simp [isFdgTopdata] at hfd
            | vstr s => simp [isFdgTopdata] at hfd
            | vlist xs => simp [isFdgTopdata] at hfd
          · rintro ⟨c2, hc2, hcase⟩
            injection hc2 with hc2
            subst hc2
            cases hcase with
            | inl hexc =>
              obtain ⟨exc, hexc⟩ := hexc
              rw [hy] at hexc
              cases hexc
            | inr hall =>
              have hv := hall v hy
              rw [hfd] at hv
              cases hv
  · intro hcf
    constructor
    · simp [_get_top_data, hcf]
    · simp [top, _get_top_data, hcf, topLoop]

/-- Witness for C10: with the topfile absent from the fileserver,
`_get_top_data` yields the empty routine list and `top` the empty mapping. -/
theorem fdg_C10_topfile_loading_witness :
    _get_top_data absentTopEnv "salt://fdg/top.fdg" = Except.ok [] ∧
      top absentTopEnv "salt://fdg/top.fdg" = Except.ok [] :=
  (fdg_C10_topfile_loading absentTopEnv "salt://fdg/top.fdg").2 rfl

end HubbleFdg
